import Mathlib

/-!
Shallow embedding of the excerpted tensorlayer code:
`tensorlayer/layers/convolution/atrous_conv.py` and
`tensorlayer/layers/normalization.py`.

Python exceptions are modelled by the inductive `PyErr`; constructor and
build methods are embedded as functions returning an execution trace that
records the exception raised (if any), the tensorflow variables created via
`tf.get_variable` / `_get_tf_variable`, and what was registered into the
layer (`_add_params` / `add_weights` / `_add_layers`).  Exception messages
are abbreviated to short distinct tags; the real messages are pairwise
distinct in the same way.  Tensor arithmetic is embedded over `ℚ` (exact
arithmetic); the framework square root is an explicit function parameter
`sqrtQ`, and `math_ops.rsqrt` is its pointwise reciprocal.
-/

/-- Python exception kinds raised by the embedded code, with an abbreviated
message or offending name as payload. -/
inductive PyErr where
  | valueError (msg : String)
  | exceptionErr (msg : String)
  | nameError (nm : String)
  | attributeError (attr : String)
  | typeError (msg : String)
  | keyError (key : String)
  | indexError (msg : String)
  | zeroDivisionError
  deriving DecidableEq, Repr

/-- Trace of a Python `__init__` body: the exception raised (if any), the
tensorflow variables it created, and whether the layer registered its
outputs/params into the network (`_add_layers` / `_add_params` reached). -/
structure InitTrace where
  err : Option PyErr
  weights : List String
  registered : Bool
  deriving DecidableEq, Repr

/-- Trace of a Python `build` / `compile` body: the exception raised (if
any), the tensorflow variables created, and the weights registered on the
layer via `add_weights` / `_add_params`. -/
structure BuildTrace where
  err : Option PyErr
  created : List String
  registered : List String
  deriving DecidableEq, Repr

/-- True when the trace ended in a `ValueError`. -/
def BuildTrace.raisedValueError (t : BuildTrace) : Bool :=
  match t.err with
  | some (PyErr.valueError _) => true
  | _ => false

/-- Embedding of Python `str.upper` (ASCII range, which covers all padding
strings of interest), mapping each character to upper case. -/
def pyUpper (s : String) : String :=
  String.mk (s.data.map Char.toUpper)

/-- Embedding of `AtrousConv2dLayer.__init__` (atrous_conv.py lines
127-147).  The body normalizes `padding` with `.upper()`, raises
`ValueError` when the result is not `SAME` or `VALID`, and otherwise only
stores configuration attributes; no tensorflow variable is created and the
layer is not registered (that happens in `compile`). -/
def atrousConv2dInit (padding : String) : InitTrace :=
  let p := pyUpper padding
  if p ∈ (["SAME", "VALID"] : List String) then
    { err := none, weights := [], registered := false }
  else
    { err := some (PyErr.valueError "invalid padding"), weights := [], registered := false }

/-- Embedding of `AtrousDeConv2dLayer.__init__` (atrous_conv.py lines
242-261): the same padding normalization and check, then attribute
assignments only. -/
def atrousDeConv2dInit (padding : String) : InitTrace :=
  let p := pyUpper padding
  if p ∈ (["SAME", "VALID"] : List String) then
    { err := none, weights := [], registered := false }
  else
    { err := some (PyErr.valueError "invalid padding"), weights := [], registered := false }

/-- Embedding of `AtrousConv2dLayer.compile` (atrous_conv.py lines
179-204): creates the weight matrix `W_atrous_conv2d`, creates the bias
`b_atrous_conv2d` when `b_init` is truthy, and registers layers/params. -/
def atrousConv2dCompile (b_init : Bool) : BuildTrace :=
  let ws := ["W_atrous_conv2d"] ++ (if b_init then ["b_atrous_conv2d"] else [])
  { err := none, created := ws, registered := ws }

/-- Embedding of `AtrousDeConv2dLayer.compile` (atrous_conv.py lines
293-325). -/
def atrousDeConv2dCompile (b_init : Bool) : BuildTrace :=
  let ws := ["W_atrous_conv2d_transpose"] ++ (if b_init then ["b_atrous_conv2d_transpose"] else [])
  { err := none, created := ws, registered := ws }

/-- Embedding of `LocalResponseNorm.__init__` (normalization.py lines
49-67): stores depth_radius/bias/alpha/beta and logs; no variables, no
registration. -/
def localResponseNormInit : InitTrace :=
  { err := none, weights := [], registered := false }

/-- The channel axis `BatchNorm.__init__` selects from the input shape and
data_format (normalization.py lines 186-192): the last axis for
`channels_last`, axis 1 for `channels_first`, and `none` (leading to the
`ValueError`) for any other string. -/
def batchNormAxis (xshape : List Nat) (data_format : String) : Option Nat :=
  if data_format = "channels_last" then some (xshape.length - 1)
  else if data_format = "channels_first" then some 1
  else none

/-- Embedding of `BatchNorm.__init__` (normalization.py lines 164-269).
`xshape` is the shape of `self.inputs` (the previous layer's output);
`beta_init` / `gamma_init` are the truthiness of the corresponding
initializer arguments.  The body: raises `Exception` when
`decay < 0 or 1 < decay`; computes the channel axis from `data_format`,
raising `ValueError` on any other string; indexes `x_shape[axis]`
(IndexError when out of range); then creates, inside the variable scope,
the variables `beta` (if beta_init), `gamma` (if gamma_init),
`moving_mean` and `moving_variance`, computes the normalized outputs and
registers layers and params.  Note that all of this happens during
construction. -/
def batchNormInit (xshape : List Nat) (decay : ℚ) (data_format : String)
    (beta_init gamma_init : Bool) : InitTrace :=
  if decay < 0 ∨ 1 < decay then
    { err := some (PyErr.exceptionErr "decay should be between 0 to 1"),
      weights := [], registered := false }
  else
    match batchNormAxis xshape data_format with
    | none =>
      { err := some (PyErr.valueError "data_format should be either channels_last or channels_first"),
        weights := [], registered := false }
    | some axis =>
      match xshape.get? axis with
      | none =>
        { err := some (PyErr.indexError "x_shape"), weights := [], registered := false }
      | some _ =>
        let vars := (if beta_init then ["beta"] else []) ++
          (if gamma_init then ["gamma"] else []) ++
          ["moving_mean", "moving_variance"]
        { err := none, weights := vars, registered := true }

/-- Embedding of `InstanceNorm.__init__` (normalization.py lines 286-300):
stores act and epsilon only. -/
def instanceNormInit : InitTrace :=
  { err := none, weights := [], registered := false }

/-- Embedding of `InstanceNorm.build` (normalization.py lines 302-313):
creates the variables `name+'\scale'` and `name+'\offset'` over the last
input dimension and registers them with `add_weights`.  `shape` is the
input shape; indexing `[-1]` on a rank-0 shape would raise IndexError. -/
def instanceNormBuild (nm : String) (shape : List Nat) : BuildTrace :=
  match shape.getLast? with
  | none => { err := some (PyErr.indexError "get_shape"), created := [], registered := [] }
  | some _ =>
    let ws := [nm ++ "\\scale", nm ++ "\\offset"]
    { err := none, created := ws, registered := ws }

/-- Embedding of `LayerNorm.__init__` (normalization.py lines 362-391):
delegates to `tf.contrib.layers.layer_norm` during construction, which
creates a `beta` variable when `center` and a `gamma` variable when
`scale` (standard behaviour of that framework function), then collects
the variables of the scope and registers layers and params. -/
def layerNormInit (center scale : Bool) : InitTrace :=
  let vars := (if center then ["var/beta"] else []) ++ (if scale then ["var/gamma"] else [])
  { err := none, weights := vars, registered := true }

/-- Embedding of `GroupNorm.__init__` (normalization.py lines 411-421):
stores groups, epsilon, act and data_format only. -/
def groupNormInit : InitTrace :=
  { err := none, weights := [], registered := false }

/-- The channel count `GroupNorm.build` reads from a rank-4 input shape:
`shape[-1]` for channels_last, `shape[1]` for channels_first
(normalization.py lines 429 and 435). -/
def groupNormChannels (shape : List Int) (data_format : String) : Int :=
  if data_format = "channels_last" then shape.getLastD 0 else shape.getD 1 0

/-- Continuation of `GroupNorm.build` inside a valid data_format branch
(normalization.py lines 430-460): computing `int_shape` evaluates
`channels // self.groups` (ZeroDivisionError when groups = 0); then
`groups > channels` and `channels % groups != 0` raise ValueError; then
the `gamma` and `beta` variables are created; finally the line
`self.add_weights([self.gamma, self.bata])` reads the never-assigned
attribute `bata` and raises AttributeError, so nothing is registered. -/
def groupNormChecks (channels groups : Int) : BuildTrace :=
  if groups = 0 then
    { err := some PyErr.zeroDivisionError, created := [], registered := [] }
  else if groups > channels then
    { err := some (PyErr.valueError "invalid groups for channels"), created := [], registered := [] }
  else if channels.emod groups ≠ 0 then
    { err := some (PyErr.valueError "channels not commensurate with groups"),
      created := [], registered := [] }
  else
    { err := some (PyErr.attributeError "bata"), created := ["gamma", "beta"], registered := [] }

/-- Embedding of `GroupNorm.build` (normalization.py lines 423-460):
raises `Exception` unless the input shape has rank 4; branches on
data_format (ValueError on any other string); then follows
`groupNormChecks`. -/
def groupNormBuild (shape : List Int) (groups : Int) (data_format : String) : BuildTrace :=
  if shape.length ≠ 4 then
    { err := some (PyErr.exceptionErr "GroupNorm only supports 2D images."),
      created := [], registered := [] }
  else if data_format = "channels_last" then
    groupNormChecks (shape.getLastD 0) groups
  else if data_format = "channels_first" then
    groupNormChecks (shape.getD 1 0) groups
  else
    { err := some (PyErr.valueError "data_format must be channels_last or channels_first"),
      created := [], registered := [] }

/-- Embedding of `SwitchNorm.__init__` (normalization.py lines 503-523):
stores act, epsilon and the initializers as attributes only. -/
def switchNormInit : InitTrace :=
  { err := none, weights := [], registered := false }

/-- Names bound at module scope of normalization.py: the imports (lines
4-16), `__all__`, the module-level helper functions and the six classes.
Used to decide Python name resolution inside method bodies. -/
def normalizationModuleNames : List String :=
  ["tf", "moving_averages", "ops", "math_ops", "Layer", "LayersConfig",
   "TF_GRAPHKEYS_VARIABLES", "get_collection_trainable", "logging",
   "deprecated_alias", "__all__", "_to_channel_first_bias", "_bias_scale",
   "_bias_add", "batch_normalization", "LocalResponseNorm", "BatchNorm",
   "InstanceNorm", "LayerNorm", "GroupNorm", "SwitchNorm"]

/-- Local names bound in the body of `SwitchNorm.build` before the
`gamma` variable is requested: the parameters `self`, `inputs` and the
assignment `ch` (normalization.py lines 525-526). -/
def switchNormBuildLocalNames : List String :=
  ["self", "inputs", "ch"]

/-- Python name resolution for a bare name inside `SwitchNorm.build`:
found when bound locally or at module scope (there is no enclosing
function scope, and no relevant builtin). -/
def switchNormResolves (nm : String) : Bool :=
  nm ∈ switchNormBuildLocalNames ∨ nm ∈ normalizationModuleNames

/-- Embedding of `SwitchNorm.build` (normalization.py lines 525-533):
reads `ch = inputs.shape[-1]` (IndexError on a rank-0 shape), then
evaluates the argument list of `tf.get_variable("gamma", [ch],
initializer=gamma_init)`.  Evaluating the bare name `gamma_init` performs
name resolution; when it fails the statement raises NameError before any
variable is created. -/
def switchNormBuild (shape : List Nat) : BuildTrace :=
  match shape.getLast? with
  | none => { err := some (PyErr.indexError "shape"), created := [], registered := [] }
  | some _ =>
    if switchNormResolves "gamma_init" then
      if switchNormResolves "beta_init" then
        let ws := ["gamma", "beta", "mean_weight", "var_weight"]
        { err := none, created := ws, registered := ws }
      else
        { err := some (PyErr.nameError "beta_init"), created := ["gamma"], registered := [] }
    else
      { err := some (PyErr.nameError "gamma_init"), created := [], registered := [] }

/-- A rank-4 tensor over exact rational arithmetic, indexed by its four
axes. -/
def Tensor4 (d0 d1 d2 d3 : Nat) : Type :=
  Fin d0 → Fin d1 → Fin d2 → Fin d3 → ℚ

/-- A rank-1 per-channel tensor (shape `[c]`), indexed by channel
position. -/
def ChanVec : Type :=
  Nat → ℚ

/-- Embedding of the framework primitive `math_ops.rsqrt`: the pointwise
reciprocal of the framework square root `sqrtQ`. -/
def rsqrt (sqrtQ : ℚ → ℚ) (y : ℚ) : ℚ :=
  (sqrtQ y)⁻¹

/-- Embedding of `_to_channel_first_bias` (normalization.py lines 82-87):
reshapes a `[c]` bias to `[c, 1, 1]`. -/
def _to_channel_first_bias (b : ChanVec) : Nat → Nat → Nat → ℚ :=
  fun c _ _ => b c

/-- Embedding of `_bias_scale` (normalization.py lines 90-97): elementwise
product of a rank-4 tensor with a `[c]` bias.  Under `NHWC` broadcasting
multiplies along the last axis; under `NCHW` the bias is reshaped to
`[c, 1, 1]` and broadcasting multiplies along axis 1; any other string
raises `ValueError`. -/
def _bias_scale (x : Tensor4 d0 d1 d2 d3) (b : ChanVec) (data_format : String) :
    Except PyErr (Tensor4 d0 d1 d2 d3) :=
  if data_format = "NHWC" then
    Except.ok (fun i j k l => x i j k l * b l.val)
  else if data_format = "NCHW" then
    Except.ok (fun i j k l => x i j k l * _to_channel_first_bias b j.val k.val l.val)
  else
    Except.error (PyErr.valueError "invalid data_format")

/-- Embedding of `_bias_add` (normalization.py lines 100-107): the same
with addition in place of multiplication. -/
def _bias_add (x : Tensor4 d0 d1 d2 d3) (b : ChanVec) (data_format : String) :
    Except PyErr (Tensor4 d0 d1 d2 d3) :=
  if data_format = "NHWC" then
    Except.ok (fun i j k l => x i j k l + b l.val)
  else if data_format = "NCHW" then
    Except.ok (fun i j k l => x i j k l + _to_channel_first_bias b j.val k.val l.val)
  else
    Except.error (PyErr.valueError "invalid data_format")

/-- Embedding of the dictionary lookup
`df = {'channels_first': 'NCHW', 'channels_last': 'NHWC'}` at
normalization.py line 124; a missing key raises `KeyError`. -/
def dfDict (data_format : String) : Except PyErr String :=
  if data_format = "channels_first" then Except.ok "NCHW"
  else if data_format = "channels_last" then Except.ok "NHWC"
  else Except.error (PyErr.keyError data_format)

/-- Embedding of the helper `batch_normalization` (normalization.py lines
110-125): `inv = rsqrt(variance + variance_epsilon)`, multiplied by
`scale` when present; `a = inv`; `b = offset - mean * inv` when `offset`
is present, else `-mean * inv` (the dtype casts are identities over exact
arithmetic); the result is `_bias_add(_bias_scale(x, a, df), b, df)` for
the translated data format. -/
def batch_normalization (sqrtQ : ℚ → ℚ) (x : Tensor4 d0 d1 d2 d3)
    (mean variance : ChanVec) (offset scale : Option ChanVec)
    (variance_epsilon : ℚ) (data_format : String) :
    Except PyErr (Tensor4 d0 d1 d2 d3) :=
  let inv0 : ChanVec := fun c => rsqrt sqrtQ (variance c + variance_epsilon)
  let inv : ChanVec := match scale with
    | some s => fun c => inv0 c * s c
    | none => inv0
  let a : ChanVec := inv
  let b : ChanVec := match offset with
    | some o => fun c => o c - mean c * inv c
    | none => fun c => (- mean c) * inv c
  match dfDict data_format with
  | Except.error e => Except.error e
  | Except.ok df =>
    match _bias_scale x a df with
    | Except.error e => Except.error e
    | Except.ok y => _bias_add y b df

/-- Reference normalization, written from the specification: the output is
`gamma * (x - mean) / sqrt(variance + epsilon) + beta` elementwise, with
the `gamma` factor (resp. `beta` summand) omitted when `scale` (resp.
`offset`) is `None`.  This version places the channel axis last
(`channels_last`). -/
def referenceBatchNormLast (sqrtQ : ℚ → ℚ) (x : Tensor4 d0 d1 d2 d3)
    (mean variance : ChanVec) (offset scale : Option ChanVec) (e : ℚ) :
    Tensor4 d0 d1 d2 d3 :=
  fun i j k l =>
    (match scale with | some g => g l.val | none => 1) *
        (x i j k l - mean l.val) / sqrtQ (variance l.val + e) +
      (match offset with | some o => o l.val | none => 0)

/-- Reference normalization with the channel axis at position 1
(`channels_first`); otherwise identical to `referenceBatchNormLast`. -/
def referenceBatchNormFirst (sqrtQ : ℚ → ℚ) (x : Tensor4 d0 d1 d2 d3)
    (mean variance : ChanVec) (offset scale : Option ChanVec) (e : ℚ) :
    Tensor4 d0 d1 d2 d3 :=
  fun i j k l =>
    (match scale with | some g => g j.val | none => 1) *
        (x i j k l - mean j.val) / sqrtQ (variance j.val + e) +
      (match offset with | some o => o j.val | none => 0)

/-- Mean of `tf.nn.moments(inputs, [1, 2], keep_dims=True)`: average over
axes 1 and 2, keeping axes 0 and 3. -/
def momentsMean12 (x : Tensor4 d0 d1 d2 d3) : Fin d0 → Fin d3 → ℚ :=
  fun i l => (∑ j : Fin d1, ∑ k : Fin d2, x i j k l) / ((d1 : ℚ) * (d2 : ℚ))

/-- Variance of `tf.nn.moments(inputs, [1, 2], keep_dims=True)`. -/
def momentsVar12 (x : Tensor4 d0 d1 d2 d3) : Fin d0 → Fin d3 → ℚ :=
  fun i l =>
    (∑ j : Fin d1, ∑ k : Fin d2, (x i j k l - momentsMean12 x i l) ^ 2) /
      ((d1 : ℚ) * (d2 : ℚ))

/-- Embedding of `InstanceNorm.forward` (normalization.py lines 315-322):
computes moments over axes `[1, 2]`, forms
`scale * (inputs - mean) / sqrt(var + epsilon) + offset`, and then
unconditionally calls `self.act(outputs)`.  When `act` is `None`, calling
`None` raises `TypeError`; otherwise the activation is applied
elementwise. -/
def instanceNormForward (sqrtQ : ℚ → ℚ) (act : Option (ℚ → ℚ)) (epsilon : ℚ)
    (scale offset : ChanVec) (x : Tensor4 d0 d1 d2 d3) :
    Except PyErr (Tensor4 d0 d1 d2 d3) :=
  let mean := momentsMean12 x
  let varv := momentsVar12 x
  let outputs : Tensor4 d0 d1 d2 d3 := fun i j k l =>
    scale l.val * ((x i j k l - mean i l) / sqrtQ (varv i l + epsilon)) + offset l.val
  match act with
  | none => Except.error (PyErr.typeError "NoneType object is not callable")
  | some f => Except.ok (fun i j k l => f (outputs i j k l))

/-- True when the computation returned normally. -/
def exceptOk {α : Type} (e : Except PyErr α) : Bool :=
  match e with
  | Except.ok _ => true
  | Except.error _ => false

/-! Theorems about the embedded code, one per claim, with helper lemmas. -/

/-- C1: constructing `AtrousConv2dLayer` or `AtrousDeConv2dLayer` raises a
`ValueError` exactly when the upper-cased padding string is neither
`SAME` nor `VALID`; in particular `BOGUS` is rejected while `SAME`,
`VALID` and lower-case `same` are accepted. -/
theorem atrous_padding_check (p : String) :
    ((atrousConv2dInit p).err.isSome = true ↔
      ¬ (pyUpper p = "SAME" ∨ pyUpper p = "VALID")) ∧
    ((atrousDeConv2dInit p).err.isSome = true ↔
      ¬ (pyUpper p = "SAME" ∨ pyUpper p = "VALID")) ∧
    (atrousConv2dInit "BOGUS").err = some (PyErr.valueError "invalid padding") ∧
    (atrousDeConv2dInit "BOGUS").err = some (PyErr.valueError "invalid padding") ∧
    (atrousConv2dInit "SAME").err = none ∧
    (atrousConv2dInit "VALID").err = none ∧
    (atrousConv2dInit "same").err = none ∧
    (atrousDeConv2dInit "SAME").err = none ∧
    (atrousDeConv2dInit "VALID").err = none := by
  refine ⟨?_, ?_, by decide, by decide, by decide, by decide, by decide, by decide, by decide⟩
  · by_cases h : pyUpper p = "SAME" ∨ pyUpper p = "VALID"
    · simp [atrousConv2dInit, h]
    · simp [atrousConv2dInit, h]
  · by_cases h : pyUpper p = "SAME" ∨ pyUpper p = "VALID"
    · simp [atrousDeConv2dInit, h]
    · simp [atrousDeConv2dInit, h]

/-- Helper: a rank-4 input shape and a valid data_format drive
`GroupNorm.build` into the common check continuation on the channel count
selected by the data_format. -/
lemma groupNormBuild_eq_checks (shape : List Int) (groups : Int) (df : String)
    (hlen : shape.length = 4) (hdf : df = "channels_last" ∨ df = "channels_first") :
    groupNormBuild shape groups df = groupNormChecks (groupNormChannels shape df) groups := by
  rcases hdf with hdf | hdf <;> subst hdf <;> unfold groupNormBuild groupNormChannels
  · rw [if_neg (fun hc => hc hlen), if_pos rfl, if_pos rfl]
  · rw [if_neg (fun hc => hc hlen), if_neg (by decide), if_pos rfl, if_neg (by decide)]

/-- Helper: with a positive group count, violating either group check makes
`groupNormChecks` end in a `ValueError` with no variable created. -/
lemma groupNormChecks_invalid (channels groups : Int) (hg : 1 ≤ groups)
    (h : channels.emod groups ≠ 0 ∨ groups > channels) :
    (groupNormChecks channels groups).raisedValueError = true ∧
    (groupNormChecks channels groups).created = [] ∧
    (groupNormChecks channels groups).registered = [] := by
  have h0 : ¬ groups = 0 := by omega
  unfold groupNormChecks
  rw [if_neg h0]
  by_cases hgt : groups > channels
  · rw [if_pos hgt]
    exact ⟨rfl, rfl, rfl⟩
  · rw [if_neg hgt]
    rw [if_pos (h.resolve_right hgt)]
    exact ⟨rfl, rfl, rfl⟩

/-- C2: building `GroupNorm` against a rank-4 input whose channel count is
not divisible by the group count raises a `ValueError` (and so does a
group count exceeding the channel count), before any variable is created
or registered. -/
theorem groupNorm_group_validation (shape : List Int) (groups : Int) (df : String)
    (hlen : shape.length = 4) (hdf : df = "channels_last" ∨ df = "channels_first")
    (hg : 1 ≤ groups)
    (h : (groupNormChannels shape df).emod groups ≠ 0 ∨
      groups > groupNormChannels shape df) :
    (groupNormBuild shape groups df).raisedValueError = true ∧
    (groupNormBuild shape groups df).created = [] ∧
    (groupNormBuild shape groups df).registered = [] := by
  rw [groupNormBuild_eq_checks shape groups df hlen hdf]
  exact groupNormChecks_invalid _ _ hg h

/-- C2 witness: a `channels_last` input with 5 channels and 2 groups is
rejected with a `ValueError` and no variables. -/
theorem groupNorm_group_validation_witness :
    (groupNormBuild [1, 1, 1, 5] 2 "channels_last").raisedValueError = true ∧
    (groupNormBuild [1, 1, 1, 5] 2 "channels_last").created = [] ∧
    (groupNormBuild [1, 1, 1, 5] 2 "channels_last").registered = [] :=
  groupNorm_group_validation [1, 1, 1, 5] 2 "channels_last" (by decide)
    (Or.inl rfl) (by decide) (Or.inl (by decide))

/-- C9: even when every `GroupNorm.build` validation passes, the final
statement reads the never-assigned attribute `self.bata` and raises
`AttributeError`; the `gamma` and `beta` variables have been created but
nothing is registered, so `build` never completes on any input. -/
theorem groupNorm_build_bata_attribute (shape : List Int) (groups : Int) (df : String)
    (hlen : shape.length = 4) (hdf : df = "channels_last" ∨ df = "channels_first")
    (hg : 1 ≤ groups) (hle : groups ≤ groupNormChannels shape df)
    (hmod : (groupNormChannels shape df).emod groups = 0) :
    (groupNormBuild shape groups df).err = some (PyErr.attributeError "bata") ∧
    (groupNormBuild shape groups df).created = ["gamma", "beta"] ∧
    (groupNormBuild shape groups df).registered = [] := by
  rw [groupNormBuild_eq_checks shape groups df hlen hdf]
  unfold groupNormChecks
  rw [if_neg (by omega), if_neg (not_lt.2 hle), if_neg (fun hc => hc hmod)]
  exact ⟨rfl, rfl, rfl⟩

/-- C9 witness: a valid configuration (4 channels, 2 groups,
channels_last) still ends in `AttributeError` on `bata`. -/
theorem groupNorm_build_bata_attribute_witness :
    (groupNormBuild [1, 1, 1, 4] 2 "channels_last").err =
      some (PyErr.attributeError "bata") ∧
    (groupNormBuild [1, 1, 1, 4] 2 "channels_last").created = ["gamma", "beta"] ∧
    (groupNormBuild [1, 1, 1, 4] 2 "channels_last").registered = [] :=
  groupNorm_build_bata_attribute [1, 1, 1, 4] 2 "channels_last" (by decide)
    (Or.inl rfl) (by decide) (by decide) (by decide)

/-- C3: `BatchNorm.__init__` raises its decay exception exactly when the
decay lies outside the closed interval `[0, 1]`; the boundary values `0`
and `1` are accepted. -/
theorem batchNorm_decay_check (d : ℚ) :
    ((batchNormInit [32, 10] d "channels_last" true true).err =
        some (PyErr.exceptionErr "decay should be between 0 to 1") ↔
      (d < 0 ∨ 1 < d)) ∧
    (batchNormInit [32, 10] (0 : ℚ) "channels_last" true true).err = none ∧
    (batchNormInit [32, 10] (1 : ℚ) "channels_last" true true).err = none := by
  refine ⟨?_, by decide, by decide⟩
  by_cases h : d < 0 ∨ 1 < d
  · simp [batchNormInit, h]
  · simp [batchNormInit, batchNormAxis, h]

/-- C6: the data_format parameters accept exactly their documented
enumerations: `BatchNorm.__init__` (given an in-range decay) and
`GroupNorm.build` (given a rank-4 input) raise their data_format
`ValueError` exactly on strings other than `channels_last` /
`channels_first`, and the helpers `_bias_scale` / `_bias_add` fail exactly
on strings other than `NHWC` / `NCHW`. -/
theorem data_format_enumerations (d : ℚ) (f : String) (shape : List Int) (g : Int)
    (x : Tensor4 1 2 2 3) (b : ChanVec)
    (hd0 : 0 ≤ d) (hd1 : d ≤ 1) (hlen : shape.length = 4) :
    ((batchNormInit [32, 10] d f true true).err =
        some (PyErr.valueError "data_format should be either channels_last or channels_first") ↔
      ¬ (f = "channels_last" ∨ f = "channels_first")) ∧
    ((groupNormBuild shape g f).err =
        some (PyErr.valueError "data_format must be channels_last or channels_first") ↔
      ¬ (f = "channels_last" ∨ f = "channels_first")) ∧
    (exceptOk (_bias_scale x b f) = false ↔ ¬ (f = "NHWC" ∨ f = "NCHW")) ∧
    (exceptOk (_bias_add x b f) = false ↔ ¬ (f = "NHWC" ∨ f = "NCHW")) := by
  have hd : ¬ (d < 0 ∨ 1 < d) := by
    push_neg
    exact ⟨hd0, hd1⟩
  refine ⟨?_, ?_, ?_, ?_⟩
  · by_cases hf : f = "channels_last" ∨ f = "channels_first"
    · rcases hf with hf | hf <;> subst hf <;> simp [batchNormInit, batchNormAxis, hd]
    · have hf1 : f ≠ "channels_last" := fun hc => hf (Or.inl hc)
      have hf2 : f ≠ "channels_first" := fun hc => hf (Or.inr hc)
      simp [batchNormInit, batchNormAxis, hd, hf1, hf2]
  · by_cases hf : f = "channels_last" ∨ f = "channels_first"
    · rw [groupNormBuild_eq_checks shape g f hlen hf]
      unfold groupNormChecks
      split_ifs <;> simp [hf]
    · have hf1 : f ≠ "channels_last" := fun hc => hf (Or.inl hc)
      have hf2 : f ≠ "channels_first" := fun hc => hf (Or.inr hc)
      unfold groupNormBuild
      rw [if_neg (fun hc => hc hlen), if_neg hf1, if_neg hf2]
      simp [hf]
  · by_cases hf : f = "NHWC" ∨ f = "NCHW"
    · rcases hf with hf | hf <;> subst hf <;> simp [_bias_scale, exceptOk]
    · have hf1 : f ≠ "NHWC" := fun hc => hf (Or.inl hc)
      have hf2 : f ≠ "NCHW" := fun hc => hf (Or.inr hc)
      simp [_bias_scale, exceptOk, hf1, hf2, hf]
  · by_cases hf : f = "NHWC" ∨ f = "NCHW"
    · rcases hf with hf | hf <;> subst hf <;> simp [_bias_add, exceptOk]
    · have hf1 : f ≠ "NHWC" := fun hc => hf (Or.inl hc)
      have hf2 : f ≠ "NCHW" := fun hc => hf (Or.inr hc)
      simp [_bias_add, exceptOk, hf1, hf2, hf]

/-- C6 witness: at decay 1/2, the data_format string `BOGUS` is rejected
everywhere while the valid enumerations are not. -/
theorem data_format_enumerations_witness :
    ((batchNormInit [32, 10] (1/2 : ℚ) "BOGUS" true true).err =
        some (PyErr.valueError "data_format should be either channels_last or channels_first") ↔
      ¬ ("BOGUS" = "channels_last" ∨ "BOGUS" = "channels_first")) ∧
    ((groupNormBuild [1, 1, 1, 4] 2 "BOGUS").err =
        some (PyErr.valueError "data_format must be channels_last or channels_first") ↔
      ¬ ("BOGUS" = "channels_last" ∨ "BOGUS" = "channels_first")) ∧
    (exceptOk (_bias_scale (fun _ _ _ _ => (0 : ℚ) : Tensor4 1 2 2 3) (fun _ => (0 : ℚ) : ChanVec) "BOGUS") = false ↔
      ¬ ("BOGUS" = "NHWC" ∨ "BOGUS" = "NCHW")) ∧
    (exceptOk (_bias_add (fun _ _ _ _ => (0 : ℚ) : Tensor4 1 2 2 3) (fun _ => (0 : ℚ) : ChanVec) "BOGUS") = false ↔
      ¬ ("BOGUS" = "NHWC" ∨ "BOGUS" = "NCHW")) :=
  data_format_enumerations (1/2 : ℚ) "BOGUS" [1, 1, 1, 4] 2
    (fun _ _ _ _ => (0 : ℚ)) (fun _ => (0 : ℚ)) (by norm_num) (by norm_num) (by decide)

/-- C7: when a constructor validation raises (any invalid padding for the
atrous layers, any failing check in `BatchNorm.__init__`), the trace shows
no weight variable was created and the layer was not registered: failures
are atomic. -/
theorem validation_atomicity (p q : String) (shape : List Nat) (d : ℚ) (f : String)
    (bi gi : Bool) :
    ((atrousConv2dInit p).err.isSome = true →
      (atrousConv2dInit p).weights = [] ∧ (atrousConv2dInit p).registered = false) ∧
    ((atrousDeConv2dInit q).err.isSome = true →
      (atrousDeConv2dInit q).weights = [] ∧ (atrousDeConv2dInit q).registered = false) ∧
    ((batchNormInit shape d f bi gi).err.isSome = true →
      (batchNormInit shape d f bi gi).weights = [] ∧
      (batchNormInit shape d f bi gi).registered = false) := by
  refine ⟨?_, ?_, ?_⟩
  · intro _
    by_cases hp : pyUpper p ∈ (["SAME", "VALID"] : List String) <;>
      simp [atrousConv2dInit, hp]
  · intro _
    by_cases hp : pyUpper q ∈ (["SAME", "VALID"] : List String) <;>
      simp [atrousDeConv2dInit, hp]
  · intro h
    by_cases hd : d < 0 ∨ 1 < d
    · simp [batchNormInit, hd]
    · rcases ha : batchNormAxis shape f with _ | axis
      · simp [batchNormInit, hd, ha]
      · rcases hg : shape[axis]? with _ | v
        · simp [batchNormInit, hd, ha, hg]
        · exfalso
          simp [batchNormInit, hd, ha, hg] at h

/-- C7 witness: the invalid padding `BOGUS` and the out-of-range decay 2
fail with empty weight lists and no registration. -/
theorem validation_atomicity_witness :
    ((atrousConv2dInit "BOGUS").weights = [] ∧
      (atrousConv2dInit "BOGUS").registered = false) ∧
    ((atrousDeConv2dInit "BOGUS").weights = [] ∧
      (atrousDeConv2dInit "BOGUS").registered = false) ∧
    ((batchNormInit [3] (2 : ℚ) "channels_last" true true).weights = [] ∧
      (batchNormInit [3] (2 : ℚ) "channels_last" true true).registered = false) :=
  ⟨(validation_atomicity "BOGUS" "BOGUS" [3] (2 : ℚ) "channels_last" true true).1 (by decide),
   (validation_atomicity "BOGUS" "BOGUS" [3] (2 : ℚ) "channels_last" true true).2.1 (by decide),
   (validation_atomicity "BOGUS" "BOGUS" [3] (2 : ℚ) "channels_last" true true).2.2 (by decide)⟩

/-- C8: the name `gamma_init` is not resolvable inside `SwitchNorm.build`
(it is neither a local of the method nor bound at module scope, only
stored as `self.gamma_init`), so on every input shape with a last
dimension, `build` raises `NameError` before creating or registering any
variable. -/
theorem switchNorm_build_name_error (shape : List Nat) (c : Nat)
    (h : shape.getLast? = some c) :
    switchNormResolves "gamma_init" = false ∧
    (switchNormBuild shape).err = some (PyErr.nameError "gamma_init") ∧
    (switchNormBuild shape).created = [] ∧
    (switchNormBuild shape).registered = [] := by
  refine ⟨by decide, ?_, ?_, ?_⟩ <;>
    · unfold switchNormBuild
      rw [h]
      rfl

/-- C8 witness: the rank-4 shape `[2, 4, 4, 3]`. -/
theorem switchNorm_build_name_error_witness :
    switchNormResolves "gamma_init" = false ∧
    (switchNormBuild [2, 4, 4, 3]).err = some (PyErr.nameError "gamma_init") ∧
    (switchNormBuild [2, 4, 4, 3]).created = [] ∧
    (switchNormBuild [2, 4, 4, 3]).registered = [] :=
  switchNorm_build_name_error [2, 4, 4, 3] 3 (by decide)

/-- C4: the helper `batch_normalization` is a refactoring of the reference
normalization: over exact arithmetic, whenever each `variance c + e` is
positive and `sqrtQ` is a genuine square root at those points, the value
computed through `a = inv`, `b = offset - mean * inv` and
`_bias_add(_bias_scale(x, a, df), b, df)` equals
`gamma * (x - mean) / sqrt(variance + e) + beta` elementwise (with the
factor or summand omitted when `scale` or `offset` is `None`), for both
`channels_last` and `channels_first`. -/
theorem batch_normalization_refines_reference {d0 d1 d2 d3 : Nat}
    (sqrtQ : ℚ → ℚ) (x : Tensor4 d0 d1 d2 d3) (mean variance : ChanVec)
    (offset scale : Option ChanVec) (e : ℚ)
    (hpos : ∀ c, 0 < variance c + e)
    (hsq : ∀ c, sqrtQ (variance c + e) * sqrtQ (variance c + e) = variance c + e) :
    batch_normalization sqrtQ x mean variance offset scale e "channels_last" =
      Except.ok (referenceBatchNormLast sqrtQ x mean variance offset scale e) ∧
    batch_normalization sqrtQ x mean variance offset scale e "channels_first" =
      Except.ok (referenceBatchNormFirst sqrtQ x mean variance offset scale e) := by
  have hne : ∀ c, sqrtQ (variance c + e) ≠ 0 := by
    intro c hc
    have h2 := hsq c
    rw [hc, mul_zero] at h2
    have h3 := hpos c
    rw [← h2] at h3
    exact lt_irrefl 0 h3
  refine ⟨?_, ?_⟩
  · rcases scale with _ | g <;> rcases offset with _ | o <;>
      refine congrArg Except.ok
        (funext fun i => funext fun j => funext fun k => funext fun l => ?_) <;>
      simp only [referenceBatchNormLast, rsqrt] <;>
      field_simp [hne l.val] <;>
      ring
  · rcases scale with _ | g <;> rcases offset with _ | o <;>
      refine congrArg Except.ok
        (funext fun i => funext fun j => funext fun k => funext fun l => ?_) <;>
      simp only [referenceBatchNormFirst, rsqrt, _to_channel_first_bias] <;>
      field_simp [hne j.val] <;>
      ring

/-- C4 witness: a concrete 1x1x1x1 tensor with zero mean and variance,
epsilon 1 and the square root fixed at 1. -/
theorem batch_normalization_refines_reference_witness :
    batch_normalization (fun _ => (1 : ℚ))
        (fun _ _ _ _ => (2 : ℚ) : Tensor4 1 1 1 1)
        (fun _ => (0 : ℚ)) (fun _ => (0 : ℚ)) none none (1 : ℚ) "channels_last" =
      Except.ok (referenceBatchNormLast (fun _ => (1 : ℚ))
        (fun _ _ _ _ => (2 : ℚ)) (fun _ => (0 : ℚ)) (fun _ => (0 : ℚ)) none none (1 : ℚ)) ∧
    batch_normalization (fun _ => (1 : ℚ))
        (fun _ _ _ _ => (2 : ℚ) : Tensor4 1 1 1 1)
        (fun _ => (0 : ℚ)) (fun _ => (0 : ℚ)) none none (1 : ℚ) "channels_first" =
      Except.ok (referenceBatchNormFirst (fun _ => (1 : ℚ))
        (fun _ _ _ _ => (2 : ℚ)) (fun _ => (0 : ℚ)) (fun _ => (0 : ℚ)) none none (1 : ℚ)) :=
  batch_normalization_refines_reference (fun _ => (1 : ℚ))
    (fun _ _ _ _ => (2 : ℚ)) (fun _ => (0 : ℚ)) (fun _ => (0 : ℚ)) none none (1 : ℚ)
    (by intro c; norm_num) (by intro c; norm_num)

/-- C10: `InstanceNorm.forward` applies `self.act` unconditionally, so
with the default `act = None` every call raises `TypeError` instead of
returning the normalized tensor; with any callable activation it returns
normally. -/
theorem instanceNorm_forward_requires_act {d0 d1 d2 d3 : Nat} (sqrtQ : ℚ → ℚ)
    (epsilon : ℚ) (scale offset : ChanVec) (x : Tensor4 d0 d1 d2 d3) :
    instanceNormForward sqrtQ none epsilon scale offset x =
      Except.error (PyErr.typeError "NoneType object is not callable") ∧
    ∀ f : ℚ → ℚ, exceptOk (instanceNormForward sqrtQ (some f) epsilon scale offset x) = true :=
  ⟨rfl, fun _ => rfl⟩

/-- C5 counterexample: constructing `BatchNorm` with its defaults
(decay 0.9, channels_last, both initializers) already creates the
variables `beta`, `gamma`, `moving_mean` and `moving_variance` and
registers the layer, so construction is not weight-free for every layer
class. -/
theorem batchNorm_init_allocates_weights :
    (batchNormInit [32, 10] (9/10 : ℚ) "channels_last" true true).err = none ∧
    (batchNormInit [32, 10] (9/10 : ℚ) "channels_last" true true).weights =
      ["beta", "gamma", "moving_mean", "moving_variance"] ∧
    (batchNormInit [32, 10] (9/10 : ℚ) "channels_last" true true).weights ≠ [] ∧
    (batchNormInit [32, 10] (9/10 : ℚ) "channels_last" true true).registered = true := by
  have hd : ¬ ((9/10 : ℚ) < 0 ∨ 1 < (9/10 : ℚ)) := by norm_num
  refine ⟨?_, ?_, ?_, ?_⟩ <;> simp [batchNormInit, batchNormAxis, hd]

/-- C5 (amended): the atrous convolution layers and the 2.0-style
normalization layers (LocalResponseNorm, InstanceNorm, GroupNorm,
SwitchNorm) create no weight variable during construction and allocate
weights in `build` / `compile`; but `BatchNorm` and `LayerNorm` allocate
their variables and register themselves during `__init__` itself. -/
theorem layer_lifecycle (p q nm f : String) (shape bshape : List Nat) (c : Nat)
    (dq : ℚ) (bi gi : Bool) (bb : Bool)
    (hlast : shape.getLast? = some c)
    (hbn : (batchNormInit bshape dq f bi gi).err = none) :
    (atrousConv2dInit p).weights = [] ∧ (atrousConv2dInit p).registered = false ∧
    (atrousDeConv2dInit q).weights = [] ∧ (atrousDeConv2dInit q).registered = false ∧
    localResponseNormInit.weights = [] ∧ localResponseNormInit.registered = false ∧
    instanceNormInit.weights = [] ∧ instanceNormInit.registered = false ∧
    groupNormInit.weights = [] ∧ groupNormInit.registered = false ∧
    switchNormInit.weights = [] ∧ switchNormInit.registered = false ∧
    (atrousConv2dCompile bb).created ≠ [] ∧
    (atrousDeConv2dCompile bb).created ≠ [] ∧
    (instanceNormBuild nm shape).created ≠ [] ∧
    (batchNormInit bshape dq f bi gi).weights ≠ [] ∧
    (batchNormInit bshape dq f bi gi).registered = true ∧
    (layerNormInit true true).weights ≠ [] ∧
    (layerNormInit true true).registered = true := by
  have hatrous : (atrousConv2dInit p).weights = [] ∧ (atrousConv2dInit p).registered = false := by
    by_cases hp : pyUpper p ∈ (["SAME", "VALID"] : List String) <;>
      simp [atrousConv2dInit, hp]
  have hdeconv : (atrousDeConv2dInit q).weights = [] ∧ (atrousDeConv2dInit q).registered = false := by
    by_cases hp : pyUpper q ∈ (["SAME", "VALID"] : List String) <;>
      simp [atrousDeConv2dInit, hp]
  have hinst : (instanceNormBuild nm shape).created ≠ [] := by
    unfold instanceNormBuild
    rw [hlast]
    simp
  have hbatch : (batchNormInit bshape dq f bi gi).weights ≠ [] ∧
      (batchNormInit bshape dq f bi gi).registered = true := by
    by_cases hd : dq < 0 ∨ 1 < dq
    · exfalso
      simp [batchNormInit, hd] at hbn
    · rcases ha : batchNormAxis bshape f with _ | axis
      · exfalso
        simp [batchNormInit, hd, ha] at hbn
      · rcases hg : bshape[axis]? with _ | v
        · exfalso
          simp [batchNormInit, hd, ha, hg] at hbn
        · constructor <;> simp [batchNormInit, hd, ha, hg]
  refine ⟨hatrous.1, hatrous.2, hdeconv.1, hdeconv.2, rfl, rfl, rfl, rfl, rfl, rfl, rfl, rfl,
    ?_, ?_, hinst, hbatch.1, hbatch.2, ?_, rfl⟩
  · cases bb <;> simp [atrousConv2dCompile]
  · cases bb <;> simp [atrousDeConv2dCompile]
  · simp [layerNormInit]

/-- C5 witness: concrete inputs for every hypothesis of the lifecycle
theorem. -/
theorem layer_lifecycle_witness :
    (atrousConv2dInit "SAME").weights = [] ∧ (atrousConv2dInit "SAME").registered = false ∧
    (atrousDeConv2dInit "VALID").weights = [] ∧ (atrousDeConv2dInit "VALID").registered = false ∧
    localResponseNormInit.weights = [] ∧ localResponseNormInit.registered = false ∧
    instanceNormInit.weights = [] ∧ instanceNormInit.registered = false ∧
    groupNormInit.weights = [] ∧ groupNormInit.registered = false ∧
    switchNormInit.weights = [] ∧ switchNormInit.registered = false ∧
    (atrousConv2dCompile true).created ≠ [] ∧
    (atrousDeConv2dCompile true).created ≠ [] ∧
    (instanceNormBuild "in" [2, 4, 4, 3]).created ≠ [] ∧
    (batchNormInit [32, 10] (1/2 : ℚ) "channels_last" true true).weights ≠ [] ∧
    (batchNormInit [32, 10] (1/2 : ℚ) "channels_last" true true).registered = true ∧
    (layerNormInit true true).weights ≠ [] ∧
    (layerNormInit true true).registered = true :=
  layer_lifecycle "SAME" "VALID" "in" "channels_last" [2, 4, 4, 3] [32, 10] 3
    (1/2 : ℚ) true true true (by decide)
    (by norm_num [batchNormInit, batchNormAxis])
